import Mathlib

/-!
Shallow embedding of the ledger / settlement core of the envoys backend
(`spot` service: `setBalance`, `setTrade`, `setTransaction`, `getFees`,
`setReserveLock` / `setReserveUnlock`, `getMarket` / `getPrice`).

Modelling conventions:
* Monetary amounts (`float64` with the fixed-point `decimal` helper in the
  source) are modelled as `Rat`; every claim here is about control flow and
  exact small values, never about binary rounding.
* The SQL tables touched by these functions are lists of row structures in
  `SpotState`; an `update ... where ...` is a `List.map` over the rows and an
  `insert` is an append, mirroring the fact that the SQL statements affect
  every matching row.
* The database driver is modelled as infallible: the only error returns in
  the Go bodies that are dropped are the storage-failure (`Db.Exec` /
  `QueryRow.Scan`) branches.  Collaborator calls that the claims depend on
  (`Context.Publish`, `GetCandles`) are failure-injectable through `TradeEnv`.
* `Scan` into a zero-valued variable that is left untouched on query error is
  modelled by returning the zero value (`0`, `""`, `false`) when no row
  matches, exactly as the Go code observes it.
-/

namespace Envoys

/-- `pbspot.Assigning` enum (BUY / SELL). -/
inductive Assigning where
  | buy
  | sell
deriving DecidableEq, Repr

/-- `pbspot.Balance` enum (PLUS / MINUS), the direction argument of `setBalance`. -/
inductive BalanceDir where
  | plus
  | minus
deriving DecidableEq, Repr

/-- `pbspot.Allocation` enum (INTERNAL / EXTERNAL). -/
inductive Alloc where
  | internal
  | external
deriving DecidableEq, Repr

/-- `pbspot.Assignment` enum (DEPOSIT / WITHDRAW, the roles used by the core). -/
inductive Assignment where
  | deposit
  | withdraw
deriving DecidableEq, Repr

/-- `pbspot.Status` enum (the statuses used by the core). -/
inductive Status where
  | pending
  | filled
  | cancelled
  | confirmed
deriving DecidableEq, Repr

/-- Error taxonomy of the specification (§7).  The constructors exist so the
claims about `InsufficientBalance` and `ReserveBusy` are statable; the
theorems below record which of them the source can actually produce. -/
inductive LedgerErr where
  | insufficientBalance
  | reserveBusy
deriving DecidableEq, Repr

/-- A row of the `assets` table (per-user, per-symbol balance). -/
structure AssetRow where
  userId : Int
  symbol : String
  balance : Rat
deriving DecidableEq, Repr

/-- A row of the `currencies` table (the columns the embedded functions touch). -/
structure CurrencyRow where
  symbol : String
  feesTrade : Rat
  feesDiscount : Rat
  feesCharges : Rat
deriving DecidableEq, Repr

/-- A row of the `trades` table as inserted by `setTrade`. -/
structure TradeRow where
  assigning : Assigning
  baseUnit : String
  quoteUnit : String
  price : Rat
  quantity : Rat
deriving DecidableEq, Repr

/-- A row of the `transfers` table as inserted by `setTrade` (one per leg). -/
structure TransferRow where
  orderId : Int
  assigning : Assigning
  userId : Int
  baseUnit : String
  quoteUnit : String
  price : Rat
  quantity : Rat
  fees : Rat
deriving DecidableEq, Repr

/-- A row of the `reserves` table (custodial amount plus the advisory lock flag).
`platform` / `protocol` are proto enums, carried as their wire integers. -/
structure ReserveRow where
  userId : Int
  symbol : String
  platform : Int
  protocol : Int
  address : String
  value : Rat
  lock : Bool
deriving DecidableEq, Repr

/-- A row of the `transactions` table: the 15 columns `setTransaction` inserts
plus the `id`, `status`, `create_at` columns the insert returns. -/
structure TxRow where
  id : Int
  symbol : String
  hash : String
  value : Rat
  fees : Rat
  confirmation : Int
  toAddr : String
  block : Int
  chainId : Int
  userId : Int
  assignment : Assignment
  txType : Int
  platform : Int
  protocol : Int
  allocation : Alloc
  parent : Int
  status : Status
  createAt : String
deriving DecidableEq, Repr

/-- A row of the `chains` table (the columns of the `getChain` scan that the
embedded callers use; the remaining scanned columns are configuration data
the claims never touch). -/
structure Chain where
  id : Int
  name : String
  rpc : String
  platform : Int
  confirmation : Int
  decimals : Int
  status : Bool
deriving DecidableEq, Repr

/-- A row of the `pairs` table (the columns `getPrice` reads). -/
structure PairRow where
  baseUnit : String
  quoteUnit : String
  price : Rat
deriving DecidableEq, Repr

/-- A row of the `orders` table (the columns the `getMarket` queries filter on). -/
structure OrderRow where
  id : Int
  assigning : Assigning
  baseUnit : String
  quoteUnit : String
  price : Rat
  status : Status
deriving DecidableEq, Repr

/-- The persisted state: the tables of the relational schema that the embedded
operations read or write, plus the `transactions.id` sequence. -/
structure SpotState where
  assets : List AssetRow
  currencies : List CurrencyRow
  trades : List TradeRow
  transfers : List TransferRow
  transactions : List TxRow
  reserves : List ReserveRow
  chains : List Chain
  pairs : List PairRow
  orders : List OrderRow
  nextTxId : Int
deriving DecidableEq, Repr

/-- The `pbspot.Order.Param` sub-message read by `setTrade`
(equal / maker / turn flags and the precomputed per-leg fee amount). -/
structure OrderParam where
  equal : Bool
  maker : Bool
  turn : Bool
  fees : Rat
deriving DecidableEq, Repr

/-- The `pbspot.Order` fields read by `setTrade`. -/
structure SpotOrder where
  id : Int
  assigning : Assigning
  userId : Int
  baseUnit : String
  quoteUnit : String
  price : Rat
  value : Rat
  param : OrderParam
deriving DecidableEq, Repr

/-- The `pbspot.Transaction` message: the input fields of `setTransaction`
plus the output fields the function fills in (`id`, `createAt`, `status`,
the embedded chain snapshot). -/
structure SpotTx where
  id : Int
  symbol : String
  hash : String
  value : Rat
  fees : Rat
  confirmation : Int
  toAddr : String
  block : Int
  chainId : Int
  userId : Int
  assignment : Assignment
  txType : Int
  platform : Int
  protocol : Int
  allocation : Alloc
  parent : Int
  status : Status
  createAt : String
  chain : Option Chain
deriving DecidableEq, Repr

/-! ### Balance ledger (`setBalance`, `getBalance`) -/

/-- The `update assets set balance = balance + $2 where symbol = $1 and
user_id = $3` row transformer. -/
def balPlus (symbol : String) (userId : Int) (q : Rat) (a : AssetRow) : AssetRow :=
  if a.symbol = symbol ∧ a.userId = userId then
    { a with balance := a.balance + q } else a

/-- The `update assets set balance = balance - $2 where symbol = $1 and
user_id = $3` row transformer. -/
def balMinus (symbol : String) (userId : Int) (q : Rat) (a : AssetRow) : AssetRow :=
  if a.symbol = symbol ∧ a.userId = userId then
    { a with balance := a.balance - q } else a

/-- `setBalance` (spot service): `update assets set balance = balance ± $2
where symbol = $1 and user_id = $3`.  Both directions are unconditional
updates; the Go body's only error source is the database driver, so the
embedded function always returns `Except.ok`.  (The stock-service variant in
`stock.go` is the same statement against the `balances` table.) -/
def setBalance (symbol : String) (userId : Int) (quantity : Rat)
    (cross : BalanceDir) (st : SpotState) : Except LedgerErr SpotState :=
  match cross with
  | BalanceDir.plus =>
      Except.ok { st with assets := st.assets.map (balPlus symbol userId quantity) }
  | BalanceDir.minus =>
      Except.ok { st with assets := st.assets.map (balMinus symbol userId quantity) }

/-- The first `assets` row matching `symbol = $1 and user_id = $2`
(`QueryRow` returns the first row of the result set). -/
def findAsset : List AssetRow → String → Int → Option AssetRow
  | [], _, _ => none
  | a :: l, symbol, userId =>
      if a.symbol = symbol ∧ a.userId = userId then some a
      else findAsset l symbol userId

/-- `getBalance`: `select balance from assets where symbol = $1 and
user_id = $2`; a missing row leaves the scanned zero value. -/
def getBalance (symbol : String) (userId : Int) (st : SpotState) : Rat :=
  match findAsset st.assets symbol userId with
  | some a => a.balance
  | none => 0

/-! ### Fee calculator (`getFees`) -/

/-- `select fees_trade, fees_discount from currencies where symbol = $1`
(`QueryRow` returns the first row of the result set). -/
def findCur : List CurrencyRow → String → Option CurrencyRow
  | [], _ => none
  | c :: cs, symbol =>
      if c.symbol = symbol then some c else findCur cs symbol

/-- `getFees`: looks up the symbol's currency row; on a query error (no row)
it returns the zero-valued `fees` variable; if `maker`, subtracts the
discount (`decimal.New(fees).Sub(discount)`, exact fixed-point). -/
def getFees (st : SpotState) (symbol : String) (maker : Bool) : Rat :=
  match findCur st.currencies symbol with
  | none => 0
  | some c =>
      let fees := c.feesTrade
      let discount := c.feesDiscount
      if maker then fees - discount else fees

/-! ### Trade settlement (`setTrade`) -/

/-- The `update currencies set fees_charges = fees_charges + $2 where
symbol = $1` row transformer. -/
def accrueFn (symbol : String) (amount : Rat) (c : CurrencyRow) : CurrencyRow :=
  if c.symbol = symbol then { c with feesCharges := c.feesCharges + amount } else c

/-- Fee accrual into the currency's running `fees_charges` counter. -/
def feesAccrue (st : SpotState) (symbol : String) (amount : Rat) : SpotState :=
  { st with currencies := st.currencies.map (accrueFn symbol amount) }

/-- Failure injection for the collaborator calls inside `setTrade`:
`Context.Publish` on `order/status` per order id, and per candle interval the
`GetCandles` recompute and the `trade/candles` publish.  `depth` stands for
`help.Depth()`, the fixed list of candle resolutions (not in the excerpted
source).  A `some msg` is the opaque `error` value the collaborator returned. -/
structure TradeEnv where
  publishErr : Int → Option String
  candlesErr : Nat → Option String
  candlesPubErr : Nat → Option String
  depth : List Nat

/-- The `trades` row inserted by `setTrade` from `param[0]` (read before the
loop mutates any field). -/
def tradeRowOf (p : SpotOrder) : TradeRow :=
  { assigning := p.assigning, baseUnit := p.baseUnit, quoteUnit := p.quoteUnit,
    price := p.price, quantity := p.value }

/-- The `transfers` row for leg `pi` of the pair `(p0, p1)`:
`param[i].Quantity = param[0].GetValue(); if equal then param[1].GetValue()`,
`param[i].Price = param[i].GetPrice(); if maker then param[0].GetPrice()`,
fee via `getFees(param[i].GetQuoteUnit(), maker)` on the current state.
(The Go mutations of `param[0].Price` write back the value just read, so the
`param[0].GetPrice()` that leg 1 reads is the original price.) -/
def legTransfer (p0 p1 pi : SpotOrder) (st : SpotState) : TransferRow :=
  { orderId := pi.id, assigning := pi.assigning, userId := pi.userId,
    baseUnit := pi.baseUnit, quoteUnit := pi.quoteUnit,
    price := if pi.param.maker then p0.price else pi.price,
    quantity := if pi.param.equal then p1.value else p0.value,
    fees := getFees st pi.quoteUnit pi.param.maker }

/-- One iteration of the `for i := 0; i < 2; i++` settlement loop up to (and
excluding) the publish: insert the leg's transfer row, then, when the leg's
precomputed `Param.Fees` is positive, accrue it into the quote unit's
(or, when `turn` is set, the base unit's) `fees_charges`. -/
def tradeLeg (p0 p1 pi : SpotOrder) (st : SpotState) : SpotState :=
  let st2 := { st with transfers := st.transfers ++ [legTransfer p0 p1 pi st] }
  if 0 < pi.param.fees then
    feesAccrue st2 (if pi.param.turn then p0.baseUnit else p0.quoteUnit) pi.param.fees
  else st2

/-- The trailing candle loop of `setTrade`: for each interval of
`help.Depth()`, `GetCandles` then publish to `trade/candles`; the first
collaborator error is returned as the function's error.  No state is written. -/
def candleScan (env : TradeEnv) : List Nat → Nat → Option String
  | [], _ => none
  | _ :: rest, k =>
      match env.candlesErr k with
      | some e => some e
      | none =>
          match env.candlesPubErr k with
          | some e => some e
          | none => candleScan env rest (k + 1)

/-- `setTrade` on a matched pair `param = [p0, p1]`.  Returns the mutated
state (the Go writes go straight to the database, so they persist across an
error return) together with the `error` return value.  Structure of the Go
body: zero-value early return; `trades` insert; the two-iteration leg loop,
each iteration ending in an `order/status` publish whose error is returned
immediately; then the candle loop. -/
def setTrade (env : TradeEnv) (p0 p1 : SpotOrder) (st : SpotState) :
    SpotState × Option String :=
  if p0.value = 0 then (st, none)
  else
    let st1 := { st with trades := st.trades ++ [tradeRowOf p0] }
    let st2 := tradeLeg p0 p1 p0 st1
    match env.publishErr p0.id with
    | some e => (st2, some e)
    | none =>
        let st3 := tradeLeg p0 p1 p1 st2
        match env.publishErr p1.id with
        | some e => (st3, some e)
        | none => (st3, candleScan env env.depth 0)

/-! ### Transaction reconciler (`setTransaction`) -/

/-- `select exists(select id from transactions where hash = $1)`. -/
def txHashExists (st : SpotState) (h : String) : Bool :=
  st.transactions.any (fun r => r.hash = h)

/-- `select exists(select id from transactions where hash = $1 and
allocation = INTERNAL)`. -/
def txInternalExists (st : SpotState) (h : String) : Bool :=
  st.transactions.any (fun r => r.hash = h && r.allocation = Alloc.internal)

/-- The `update transactions set assignment = DEPOSIT, status = PENDING
where hash = $3` row transformer. -/
def redepositFn (h : String) (r : TxRow) : TxRow :=
  if r.hash = h then
    { r with assignment := Assignment.deposit, status := Status.pending }
  else r

/-- The first `chains` row matching `id = %d [and status = true]`. -/
def findChain : List Chain → Int → Bool → Option Chain
  | [], _, _ => none
  | c :: l, id, status =>
      if c.id = id ∧ (status = true → c.status = true) then some c
      else findChain l id status

/-- `getChain(id, status)`: `select ... from chains where id = %d
[and status = true]`; a missing row is the error
"chain not found or chain network off". -/
def getChain (st : SpotState) (id : Int) (status : Bool) : Except String Chain :=
  match findChain st.chains id status with
  | none => Except.error "chain not found or chain network off"
  | some c => Except.ok c

/-- Result of `setTransaction` (`(*pbspot.Transaction, error)`): the created
row echoed back, the `(transaction, err)` return when the chain snapshot
lookup fails, or the `(nil, nil)` return of the duplicate-hash paths. -/
inductive TxResult where
  | created (t : SpotTx)
  | chainFail (t : SpotTx) (e : String)
  | noop
deriving DecidableEq, Repr

/-- `setTransaction`.  `uuid` stands for the `uuid.NewV1()` value used only
when the incoming event carries an empty hash.  Absent hash: insert the 15
columns and read back the defaulted `id`, `create_at`, `status` columns
(modelled from the spec §4.6: the schema, which is not in the excerpt,
defaults a new row to PENDING; `create_at` is an opaque timestamp), embed the
chain snapshot with its RPC endpoint stripped and the chain id zeroed.
Present hash with an INTERNAL row: re-flag every row of that hash to
assignment=DEPOSIT, status=PENDING and fall through to `return nil, nil`.
Present hash otherwise: `return nil, nil` untouched. -/
def setTransaction (uuid : String) (tx : SpotTx) (st : SpotState) :
    SpotState × TxResult :=
  if !txHashExists st tx.hash then
    let h := if tx.hash.length = 0 then uuid else tx.hash
    let row : TxRow :=
      { id := st.nextTxId, symbol := tx.symbol, hash := h, value := tx.value,
        fees := tx.fees, confirmation := tx.confirmation, toAddr := tx.toAddr,
        block := tx.block, chainId := tx.chainId, userId := tx.userId,
        assignment := tx.assignment, txType := tx.txType,
        platform := tx.platform, protocol := tx.protocol,
        allocation := tx.allocation, parent := tx.parent,
        status := Status.pending, createAt := "" }
    let st2 := { st with transactions := st.transactions ++ [row],
                         nextTxId := st.nextTxId + 1 }
    let tx2 := { tx with hash := h, id := row.id, createAt := row.createAt,
                         status := row.status }
    match getChain st2 tx2.chainId false with
    | Except.error e => (st2, TxResult.chainFail tx2 e)
    | Except.ok ch =>
        (st2, TxResult.created
          { tx2 with chain := some { ch with rpc := "" }, chainId := 0 })
  else
    if txInternalExists st tx.hash then
      ({ st with transactions := st.transactions.map (redepositFn tx.hash) },
       TxResult.noop)
    else
      (st, TxResult.noop)

/-! ### Reserve manager (`setReserveLock`, `setReserveUnlock`) -/

/-- The `update reserves set lock = $5 where user_id = $1 and symbol = $2 and
platform = $3 and protocol = $4` row transformer (`b` is the `$5` literal:
`true` in `setReserveLock`, `false` in `setReserveUnlock`). -/
def lockFn (userId : Int) (symbol : String) (platform protocol : Int) (b : Bool)
    (r : ReserveRow) : ReserveRow :=
  if r.userId = userId ∧ r.symbol = symbol ∧ r.platform = platform ∧
      r.protocol = protocol then
    { r with lock := b } else r

/-- `setReserveLock`: `update reserves set lock = true where user_id = $1 and
symbol = $2 and platform = $3 and protocol = $4`.  The update is
unconditional (no read of the current flag); the Go body's only error source
is the database driver. -/
def setReserveLock (userId : Int) (symbol : String) (platform protocol : Int)
    (st : SpotState) : Except LedgerErr SpotState :=
  Except.ok
    { st with reserves := st.reserves.map (lockFn userId symbol platform protocol true) }

/-- `setReserveUnlock`: the same update with `lock = false`. -/
def setReserveUnlock (userId : Int) (symbol : String) (platform protocol : Int)
    (st : SpotState) : Except LedgerErr SpotState :=
  Except.ok
    { st with reserves := st.reserves.map (lockFn userId symbol platform protocol false) }

/-! ### Market price (`getPrice`, `getMarket`) -/

/-- The first `pairs` row matching `base_unit = $1 and quote_unit = $2`. -/
def findPair : List PairRow → String → String → Option PairRow
  | [], _, _ => none
  | p :: l, base, quote =>
      if p.baseUnit = base ∧ p.quoteUnit = quote then some p
      else findPair l base quote

/-- `getPrice`: `select price from pairs where base_unit = $1 and
quote_unit = $2`; on a query error returns the zero-valued `(price, ok)`. -/
def getPrice (st : SpotState) (base quote : String) : Rat × Bool :=
  match findPair st.pairs base quote with
  | none => (0, false)
  | some p => (p.price, true)

/-- `min(price)` over a result set; `none` models the NULL aggregate of an
empty set, whose `Scan` error the caller ignores. -/
def listMin : List Rat → Option Rat
  | [] => none
  | x :: xs =>
      match listMin xs with
      | none => some x
      | some m => some (min x m)

/-- `max(price)` over a result set, as `listMin`. -/
def listMax : List Rat → Option Rat
  | [] => none
  | x :: xs =>
      match listMax xs with
      | none => some x
      | some m => some (max x m)

/-- `getMarket`: the caller-supplied `price` is reassigned from
`getPrice(base, quote)` before any use (Go: `if price, ok = e.getPrice(base,
quote); !ok { return price }`); then for BUY the minimum PENDING SELL price
at or above it, for SELL the maximum PENDING BUY price at or below it; a NULL
aggregate leaves the pair price in place. -/
def getMarket (st : SpotState) (base quote : String) (assigning : Assigning)
    (price : Rat) : Rat :=
  let pr := getPrice st base quote
  let price := pr.1
  if !pr.2 then price
  else
    match assigning with
    | Assigning.buy =>
        match listMin ((st.orders.filter (fun o =>
            o.assigning = Assigning.sell && o.baseUnit = base &&
            o.quoteUnit = quote && price ≤ o.price &&
            o.status = Status.pending)).map (fun o => o.price)) with
        | some m => m
        | none => price
    | Assigning.sell =>
        match listMax ((st.orders.filter (fun o =>
            o.assigning = Assigning.buy && o.baseUnit = base &&
            o.quoteUnit = quote && o.price ≤ price &&
            o.status = Status.pending)).map (fun o => o.price)) with
        | some m => m
        | none => price

/-! ## Helper lemmas -/

theorem balMinus_symbol (s : String) (u : Int) (q : Rat) (a : AssetRow) :
    (balMinus s u q a).symbol = a.symbol := by
  unfold balMinus; split <;> rfl

theorem balMinus_userId (s : String) (u : Int) (q : Rat) (a : AssetRow) :
    (balMinus s u q a).userId = a.userId := by
  unfold balMinus; split <;> rfl

theorem findAsset_map_balMinus (l : List AssetRow) (s : String) (u : Int) (q : Rat) :
    findAsset (l.map (balMinus s u q)) s u =
      (findAsset l s u).map (balMinus s u q) := by
  induction l with
  | nil => rfl
  | cons a t ih =>
      simp only [List.map_cons, findAsset, balMinus_symbol, balMinus_userId]
      by_cases h : a.symbol = s ∧ a.userId = u
      · simp [h]
      · simp [h, ih]

theorem findAsset_keys (l : List AssetRow) (s : String) (u : Int) (a : AssetRow)
    (h : findAsset l s u = some a) : a.symbol = s ∧ a.userId = u := by
  induction l with
  | nil => simp [findAsset] at h
  | cons b t ih =>
      by_cases hb : b.symbol = s ∧ b.userId = u
      · rw [findAsset, if_pos hb] at h
        cases h
        exact hb
      · rw [findAsset, if_neg hb] at h
        exact ih h

/-! ## C1 — balance debit -/

/-- Example `assets` table for the overdraft scenario: user 1 holds 10 BTC. -/
def exOverdraftSt : SpotState :=
  { assets := [{ userId := 1, symbol := "BTC", balance := 10 }],
    currencies := [], trades := [], transfers := [], transactions := [],
    reserves := [], chains := [], pairs := [], orders := [], nextTxId := 1 }

/-- C1 counterexample: the claim says debiting 15 from a balance of 10 fails
with `InsufficientBalance` and the balance stays 10.  On the source,
`setBalance(MINUS)` performs the unconditional SQL subtraction: the call
succeeds and the stored balance becomes -5. -/
theorem setBalance_minus_overdraft_cex :
    ∃ st2, setBalance "BTC" 1 15 BalanceDir.minus exOverdraftSt = Except.ok st2 ∧
      getBalance "BTC" 1 st2 = -5 := by
  refine ⟨_, rfl, ?_⟩
  norm_num [getBalance, findAsset, balMinus, exOverdraftSt]

/-- C1 amended: `setBalance` with direction MINUS never fails and never
checks the remaining balance: for any debit amount it returns success and
decrements the stored balance by exactly the quantity, even past zero. -/
theorem setBalance_minus_unconditional (symbol : String) (userId : Int) (q : Rat)
    (st : SpotState) (a : AssetRow)
    (ha : findAsset st.assets symbol userId = some a) :
    ∃ st2, setBalance symbol userId q BalanceDir.minus st = Except.ok st2 ∧
      getBalance symbol userId st2 = getBalance symbol userId st - q := by
  refine ⟨_, rfl, ?_⟩
  have hk := findAsset_keys st.assets symbol userId a ha
  simp only [getBalance, findAsset_map_balMinus, ha, Option.map_some']
  simp [balMinus, hk.1, hk.2]

/-- C1 witness: the amended theorem applied to the balance=10, debit=15
scenario of the claim. -/
theorem setBalance_minus_unconditional_witness :
    ∃ st2, setBalance "BTC" 1 15 BalanceDir.minus exOverdraftSt = Except.ok st2 ∧
      getBalance "BTC" 1 st2 = getBalance "BTC" 1 exOverdraftSt - 15 :=
  setBalance_minus_unconditional "BTC" 1 15 exOverdraftSt
    { userId := 1, symbol := "BTC", balance := 10 } rfl

/-! ## C6 — reserve lock -/

/-- Example `reserves` table with the (7, ETH, 1, 2) key already locked. -/
def exLockedSt : SpotState :=
  { assets := [], currencies := [], trades := [], transfers := [],
    transactions := [],
    reserves := [{ userId := 7, symbol := "ETH", platform := 1, protocol := 2,
                   address := "0xaddr", value := 3, lock := true }],
    chains := [], pairs := [], orders := [], nextTxId := 1 }

/-- C6 counterexample: the claim says `setReserveLock` on an already-locked
key fails with `ReserveBusy`.  On the source the update is unconditional: the
call on the locked key succeeds (returns `ok`, state unchanged since the flag
was already true). -/
theorem setReserveLock_already_locked_cex :
    setReserveLock 7 "ETH" 1 2 exLockedSt = Except.ok exLockedSt := rfl

/-- C6 amended: `setReserveLock` never fails (no `ReserveBusy` path exists):
it unconditionally sets the lock flag of every matching reserve row to true,
whatever its prior value; `setReserveUnlock` likewise sets it to false; hence
a lock after an unlock also succeeds. -/
theorem setReserveLock_unconditional (u : Int) (s : String) (pf pr : Int)
    (st : SpotState) :
    (setReserveLock u s pf pr st =
      Except.ok { st with reserves := st.reserves.map (lockFn u s pf pr true) }) ∧
    (setReserveUnlock u s pf pr st =
      Except.ok { st with reserves := st.reserves.map (lockFn u s pf pr false) }) ∧
    ∀ st2, setReserveUnlock u s pf pr st = Except.ok st2 →
      setReserveLock u s pf pr st2 =
        Except.ok { st2 with reserves := st2.reserves.map (lockFn u s pf pr true) } := by
  refine ⟨rfl, rfl, ?_⟩
  intro st2 _
  rfl

/-- C6 witness: the amended theorem applied to the locked example key,
together with the resulting lock flags evaluated. -/
theorem setReserveLock_unconditional_witness :
    (setReserveLock 7 "ETH" 1 2 exLockedSt =
      Except.ok { exLockedSt with
        reserves := exLockedSt.reserves.map (lockFn 7 "ETH" 1 2 true) }) ∧
    (exLockedSt.reserves.map (lockFn 7 "ETH" 1 2 true)).map ReserveRow.lock = [true] :=
  ⟨(setReserveLock_unconditional 7 "ETH" 1 2 exLockedSt).1, rfl⟩

/-! ## C7 — fee calculator -/

/-- Example `currencies` table: USD with feesTrade = 2, feesDiscount = 1. -/
def exCurSt : SpotState :=
  { assets := [],
    currencies := [{ symbol := "USD", feesTrade := 2, feesDiscount := 1,
                     feesCharges := 0 }],
    trades := [], transfers := [], transactions := [], reserves := [],
    chains := [], pairs := [], orders := [], nextTxId := 1 }

/-- C7 counterexample: the claim says `getFees` fails with `NotFound` when
the symbol has no currency record.  The source function has no error return
at all: for the absent symbol XYZ it silently yields the zero fee. -/
theorem getFees_missing_currency_cex :
    findCur exCurSt.currencies "XYZ" = none ∧
    getFees exCurSt "XYZ" true = 0 ∧ getFees exCurSt "XYZ" false = 0 := by
  refine ⟨rfl, ?_, ?_⟩ <;> rfl

/-- C7 amended: when a currency record exists, `getFees` returns
feesTrade - feesDiscount for a maker and feesTrade otherwise; when none
exists it returns 0 with no error (the function has no failure channel). -/
theorem getFees_discount_rule (st : SpotState) (symbol : String) :
    (∀ c, findCur st.currencies symbol = some c →
        getFees st symbol true = c.feesTrade - c.feesDiscount ∧
        getFees st symbol false = c.feesTrade) ∧
    (findCur st.currencies symbol = none →
        getFees st symbol true = 0 ∧ getFees st symbol false = 0) := by
  constructor
  · intro c hc
    simp [getFees, hc]
  · intro hc
    simp [getFees, hc]

/-- C7 witness: the discount rule evaluated on the USD record. -/
theorem getFees_discount_rule_witness :
    getFees exCurSt "USD" true = 2 - 1 ∧ getFees exCurSt "USD" false = 2 :=
  (getFees_discount_rule exCurSt "USD").1
    { symbol := "USD", feesTrade := 2, feesDiscount := 1, feesCharges := 0 }
    rfl

/-! ## Settlement helper lemmas -/

theorem accrueFn_symbol (s : String) (a : Rat) (c : CurrencyRow) :
    (accrueFn s a c).symbol = c.symbol := by
  unfold accrueFn; split <;> rfl

theorem accrueFn_feesTrade (s : String) (a : Rat) (c : CurrencyRow) :
    (accrueFn s a c).feesTrade = c.feesTrade := by
  unfold accrueFn; split <;> rfl

theorem accrueFn_feesDiscount (s : String) (a : Rat) (c : CurrencyRow) :
    (accrueFn s a c).feesDiscount = c.feesDiscount := by
  unfold accrueFn; split <;> rfl

theorem findCur_map_accrue (cs : List CurrencyRow) (s : String) (a : Rat) (q : String) :
    findCur (cs.map (accrueFn s a)) q = (findCur cs q).map (accrueFn s a) := by
  induction cs with
  | nil => rfl
  | cons c t ih =>
      simp only [List.map_cons, findCur, accrueFn_symbol]
      by_cases hc : c.symbol = q
      · simp [hc]
      · simp [hc, ih]

theorem getFees_feesAccrue (st : SpotState) (s : String) (a : Rat) (q : String) (m : Bool) :
    getFees (feesAccrue st s a) q m = getFees st q m := by
  simp only [getFees, feesAccrue, findCur_map_accrue]
  cases hc : findCur st.currencies q with
  | none => rfl
  | some c => simp [accrueFn_feesTrade, accrueFn_feesDiscount]

theorem getFees_update_trades (st : SpotState) (l : List TradeRow) (q : String) (m : Bool) :
    getFees { st with trades := l } q m = getFees st q m := rfl

theorem tradeLeg_trades (p0 p1 pi : SpotOrder) (st : SpotState) :
    (tradeLeg p0 p1 pi st).trades = st.trades := by
  simp only [tradeLeg]
  split <;> rfl

theorem tradeLeg_transfers (p0 p1 pi : SpotOrder) (st : SpotState) :
    (tradeLeg p0 p1 pi st).transfers = st.transfers ++ [legTransfer p0 p1 pi st] := by
  simp only [tradeLeg]
  split <;> rfl

theorem getFees_tradeLeg (p0 p1 pi : SpotOrder) (st : SpotState) (q : String) (m : Bool) :
    getFees (tradeLeg p0 p1 pi st) q m = getFees st q m := by
  simp only [tradeLeg]
  split
  · exact getFees_feesAccrue _ _ _ _ _
  · rfl

theorem candleScan_ok (env : TradeEnv) (l : List Nat) (k : Nat)
    (h : ∀ j, j < l.length →
      env.candlesErr (k + j) = none ∧ env.candlesPubErr (k + j) = none) :
    candleScan env l k = none := by
  induction l generalizing k with
  | nil => rfl
  | cons x rest ih =>
      have h0 := h 0 (by simp)
      simp only [Nat.add_zero] at h0
      simp only [candleScan, h0.1, h0.2]
      refine ih (k + 1) (fun j hj => ?_)
      have hx := h (j + 1) (by simpa using Nat.succ_lt_succ hj)
      have e : k + (j + 1) = k + 1 + j := by omega
      rw [e] at hx
      exact hx

/-! ## Example settlement inputs -/

/-- Environment where every collaborator call succeeds; `depth` plays the
role of `help.Depth()`. -/
def exEnvOk : TradeEnv :=
  { publishErr := fun _ => none, candlesErr := fun _ => none,
    candlesPubErr := fun _ => none, depth := [5, 15, 30] }

/-- Environment where every `order/status` publish fails with the opaque
collaborator error "mq down". -/
def exEnvPubFail : TradeEnv := { exEnvOk with publishErr := fun _ => some "mq down" }

/-- Maker leg of the claim scenario: ticket A, price 100, quantity 2. -/
def exMakerP0 : SpotOrder :=
  { id := 11, assigning := Assigning.sell, userId := 1, baseUnit := "BTC",
    quoteUnit := "USD", price := 100, value := 2,
    param := { equal := true, maker := true, turn := false, fees := 1 } }

/-- Taker leg of the claim scenario: ticket B, quoted price 99, equal quantity. -/
def exTakerP1 : SpotOrder :=
  { id := 12, assigning := Assigning.buy, userId := 2, baseUnit := "BTC",
    quoteUnit := "USD", price := 99, value := 2,
    param := { equal := true, maker := false, turn := false, fees := 1 } }

/-! ## C8 — zero traded value -/

/-- C8: `setTrade` on a pair whose traded value (`param[0].GetValue()`) is
zero returns success immediately: no trade row, no transfer rows, no fee
accrual, no publish — the state is returned untouched. -/
theorem setTrade_zero_value_noop (env : TradeEnv) (p0 p1 : SpotOrder)
    (st : SpotState) (h : p0.value = 0) :
    setTrade env p0 p1 st = (st, none) := by
  simp [setTrade, h]

/-- The maker ticket with traded value 0. -/
def exZeroP0 : SpotOrder := { exMakerP0 with value := 0 }

/-- C8 witness: the zero-value no-op at the concrete pair. -/
theorem setTrade_zero_value_noop_witness :
    setTrade exEnvOk exZeroP0 exTakerP1 exCurSt = (exCurSt, none) :=
  setTrade_zero_value_noop exEnvOk exZeroP0 exTakerP1 exCurSt rfl

/-! ## C4 — settlement shape on success -/

/-- C4: a fully successful settlement of a non-zero-value pair appends
exactly one trade row (from `param[0]`) and exactly two transfer rows, one
per leg; a leg whose maker flag is set takes `param[0]`'s (the maker leg's)
price while a leg without it keeps its own quoted price, and each leg's fee
comes from `getFees` with that leg's own maker flag (so the discount applies
exactly to maker-flagged legs). -/
theorem setTrade_success_shape (env : TradeEnv) (p0 p1 : SpotOrder)
    (st : SpotState) (hv : p0.value ≠ 0)
    (h0 : env.publishErr p0.id = none) (h1 : env.publishErr p1.id = none)
    (hc : ∀ k, k < env.depth.length →
      env.candlesErr k = none ∧ env.candlesPubErr k = none) :
    (setTrade env p0 p1 st).2 = none ∧
    (setTrade env p0 p1 st).1.trades = st.trades ++ [tradeRowOf p0] ∧
    (setTrade env p0 p1 st).1.transfers = st.transfers ++
      [{ orderId := p0.id, assigning := p0.assigning, userId := p0.userId,
         baseUnit := p0.baseUnit, quoteUnit := p0.quoteUnit,
         price := p0.price,
         quantity := if p0.param.equal then p1.value else p0.value,
         fees := getFees st p0.quoteUnit p0.param.maker },
       { orderId := p1.id, assigning := p1.assigning, userId := p1.userId,
         baseUnit := p1.baseUnit, quoteUnit := p1.quoteUnit,
         price := if p1.param.maker then p0.price else p1.price,
         quantity := if p1.param.equal then p1.value else p0.value,
         fees := getFees st p1.quoteUnit p1.param.maker }] := by
  have hcs : candleScan env env.depth 0 = none := by
    refine candleScan_ok env env.depth 0 (fun j hj => ?_)
    simpa using hc j hj
  simp only [setTrade, if_neg hv, h0, h1, hcs]
  refine ⟨trivial, by simp [tradeLeg_trades], ?_⟩
  simp [tradeLeg_transfers, legTransfer, getFees_tradeLeg, getFees_update_trades,
    ite_self]

/-- C4 witness: the success-shape theorem at the concrete maker (price 100,
qty 2) / taker pair with every collaborator succeeding. -/
theorem setTrade_success_shape_witness :
    (setTrade exEnvOk exMakerP0 exTakerP1 exCurSt).2 = none ∧
    (setTrade exEnvOk exMakerP0 exTakerP1 exCurSt).1.trades =
      exCurSt.trades ++ [tradeRowOf exMakerP0] ∧
    (setTrade exEnvOk exMakerP0 exTakerP1 exCurSt).1.transfers = exCurSt.transfers ++
      [{ orderId := exMakerP0.id, assigning := exMakerP0.assigning,
         userId := exMakerP0.userId, baseUnit := exMakerP0.baseUnit,
         quoteUnit := exMakerP0.quoteUnit, price := exMakerP0.price,
         quantity := if exMakerP0.param.equal then exTakerP1.value else exMakerP0.value,
         fees := getFees exCurSt exMakerP0.quoteUnit exMakerP0.param.maker },
       { orderId := exTakerP1.id, assigning := exTakerP1.assigning,
         userId := exTakerP1.userId, baseUnit := exTakerP1.baseUnit,
         quoteUnit := exTakerP1.quoteUnit,
         price := if exTakerP1.param.maker then exMakerP0.price else exTakerP1.price,
         quantity := if exTakerP1.param.equal then exTakerP1.value else exMakerP0.value,
         fees := getFees exCurSt exTakerP1.quoteUnit exTakerP1.param.maker }] :=
  setTrade_success_shape exEnvOk exMakerP0 exTakerP1 exCurSt
    (by norm_num [exMakerP0]) rfl rfl (by decide)

/-! ## C5 — quantity resolution -/

/-- C5 counterexample: pair with leg-0 value 5, leg-1 value 7, both flagged
equal.  The claim predicts the leg-1 transfer quantity 5 (the counterparty's
traded value); the source writes `param[1].GetValue()` = 7 for both legs. -/
def exEq0 : SpotOrder := { exMakerP0 with value := 5 }

/-- Leg 1 of the C5 counterexample pair (own value 7, equal flag set). -/
def exEq1 : SpotOrder := { exTakerP1 with value := 7 }

/-- C5 counterexample: both transfer quantities are 7 — the claimed
resolution (equal ⇒ counterparty value) would have produced [7, 5]. -/
theorem setTrade_quantity_cex :
    ((setTrade exEnvOk exEq0 exEq1 exCurSt).1.transfers.map TransferRow.quantity)
      = [7, 7] ∧
    ((setTrade exEnvOk exEq0 exEq1 exCurSt).1.transfers.map TransferRow.quantity)
      ≠ [7, 5] := by
  have hmap : ((setTrade exEnvOk exEq0 exEq1 exCurSt).1.transfers.map
      TransferRow.quantity) = [7, 7] := rfl
  refine ⟨hmap, fun h => ?_⟩
  rw [hmap] at h
  injection h with _ ht
  injection ht with hq _
  exact absurd hq (by norm_num)

/-- C5 amended: in the leg loop `param[i].Quantity` starts as `param[0]`'s
traded value and becomes `param[1]`'s traded value when leg `i`'s equal flag
is set.  For leg 0 this matches the claim (equal ⇒ counterparty, unequal ⇒
own); for leg 1 it is the reverse (equal ⇒ its own value, unequal ⇒ the
counterparty's). -/
theorem setTrade_quantity_rule (env : TradeEnv) (p0 p1 : SpotOrder)
    (st : SpotState) (hv : p0.value ≠ 0) (h0 : env.publishErr p0.id = none) :
    ((setTrade env p0 p1 st).1.transfers.map TransferRow.quantity) =
      (st.transfers.map TransferRow.quantity) ++
      [if p0.param.equal then p1.value else p0.value,
       if p1.param.equal then p1.value else p0.value] := by
  simp only [setTrade, if_neg hv, h0]
  cases hp1 : env.publishErr p1.id <;>
    simp [hp1, tradeLeg_transfers, legTransfer]

/-- C5 witness: the amended quantity rule evaluated on the [5, 7] pair with
both equal flags set. -/
theorem setTrade_quantity_rule_witness :
    ((setTrade exEnvOk exEq0 exEq1 exCurSt).1.transfers.map TransferRow.quantity) =
      (exCurSt.transfers.map TransferRow.quantity) ++
      [if exEq0.param.equal then exEq1.value else exEq0.value,
       if exEq1.param.equal then exEq1.value else exEq0.value] :=
  setTrade_quantity_rule exEnvOk exEq0 exEq1 exCurSt (by norm_num [exEq0, exMakerP0]) rfl

/-! ## C3 — publish failure handling -/

/-- C3 counterexample: with the order-status publish failing ("mq down"),
`setTrade` returns the raw collaborator error through its ordinary (fatal)
error return — not a distinct non-fatal `PublishFailed` warning — and the
second leg's transfer row is never written (1 transfer row, not 2), so the
failure does abort the remaining financial writes. -/
theorem setTrade_publish_fail_cex :
    (setTrade exEnvPubFail exMakerP0 exTakerP1 exCurSt).2 = some "mq down" ∧
    (setTrade exEnvPubFail exMakerP0 exTakerP1 exCurSt).1.trades.length = 1 ∧
    (setTrade exEnvPubFail exMakerP0 exTakerP1 exCurSt).1.transfers.length = 1 := by
  exact ⟨rfl, rfl, rfl⟩

/-- C3 amended: when the first leg's `order/status` publish fails, the
writes already executed (the trade row, leg 0's transfer) persist — there is
no rollback — but the collaborator's error is returned verbatim on the same
error channel as settlement failures (no distinct `PublishFailed` marker),
and the remaining settlement work (leg 1's transfer and fee accrual) is
aborted. -/
theorem setTrade_publish_fail_fatal (env : TradeEnv) (p0 p1 : SpotOrder)
    (st : SpotState) (msg : String) (hv : p0.value ≠ 0)
    (h0 : env.publishErr p0.id = some msg) :
    (setTrade env p0 p1 st).2 = some msg ∧
    (setTrade env p0 p1 st).1.trades = st.trades ++ [tradeRowOf p0] ∧
    (setTrade env p0 p1 st).1.transfers.length = st.transfers.length + 1 := by
  simp only [setTrade, if_neg hv, h0]
  exact ⟨trivial, by simp [tradeLeg_trades], by simp [tradeLeg_transfers]⟩

/-- C3 witness: the publish-failure theorem at the concrete pair and the
failing environment. -/
theorem setTrade_publish_fail_fatal_witness :
    (setTrade exEnvPubFail exMakerP0 exTakerP1 exCurSt).2 = some "mq down" ∧
    (setTrade exEnvPubFail exMakerP0 exTakerP1 exCurSt).1.trades =
      exCurSt.trades ++ [tradeRowOf exMakerP0] ∧
    (setTrade exEnvPubFail exMakerP0 exTakerP1 exCurSt).1.transfers.length =
      exCurSt.transfers.length + 1 :=
  setTrade_publish_fail_fatal exEnvPubFail exMakerP0 exTakerP1 exCurSt "mq down"
    (by norm_num [exMakerP0]) rfl

/-! ## C2 / C9 — transaction reconciler -/

/-- Example `chains` table with the chain (id 3) the example deposits use. -/
def exChainSt : SpotState :=
  { assets := [], currencies := [], trades := [], transfers := [],
    transactions := [], reserves := [],
    chains := [{ id := 3, name := "eth", rpc := "http-rpc", platform := 1,
                 confirmation := 12, decimals := 18, status := true }],
    pairs := [], orders := [], nextTxId := 1 }

/-- An external (on-chain) deposit event with hash 0xabc. -/
def exDepositTx : SpotTx :=
  { id := 0, symbol := "ETH", hash := "0xabc", value := 4, fees := 0,
    confirmation := 0, toAddr := "0xdead", block := 100, chainId := 3,
    userId := 9, assignment := Assignment.deposit, txType := 0, platform := 1,
    protocol := 2, allocation := Alloc.external, parent := 0,
    status := Status.pending, createAt := "", chain := none }

/-- The store after the first ingestion of the external deposit. -/
def exTxSt1 : SpotState := (setTransaction "uuid-1" exDepositTx exChainSt).1

/-- C2: ingesting an event whose hash is already stored, where no stored row
of that hash has allocation INTERNAL, is a complete no-op: the store is
returned unchanged (no insert, no update) and the function returns the
`(nil, nil)` result. -/
theorem setTransaction_duplicate_noop (uuid : String) (tx : SpotTx)
    (st : SpotState) (hpresent : txHashExists st tx.hash = true)
    (hext : txInternalExists st tx.hash = false) :
    setTransaction uuid tx st = (st, TxResult.noop) := by
  simp [setTransaction, hpresent, hext]

/-- C2 witness: ingesting the same external hash twice leaves exactly one
row with that hash. -/
theorem setTransaction_duplicate_noop_witness :
    setTransaction "uuid-2" exDepositTx exTxSt1 = (exTxSt1, TxResult.noop) ∧
    (exTxSt1.transactions.filter (fun r => r.hash = "0xabc")).length = 1 :=
  ⟨setTransaction_duplicate_noop "uuid-2" exDepositTx exTxSt1 rfl rfl, rfl⟩

theorem txInternalExists_hash (st : SpotState) (hs : String)
    (h : txInternalExists st hs = true) : txHashExists st hs = true := by
  simp only [txInternalExists, txHashExists, List.any_eq_true, Bool.and_eq_true,
    decide_eq_true_eq] at h ⊢
  obtain ⟨r, hr, h1, _⟩ := h
  exact ⟨r, hr, h1⟩

/-- An internally-allocated transaction with the same hash 0xabc. -/
def exInternalTx : SpotTx :=
  { exDepositTx with allocation := Alloc.internal,
                     assignment := Assignment.withdraw }

/-- The store after ingesting the internal transaction into the empty store. -/
def exIntSt1 : SpotState := (setTransaction "uuid-3" exInternalTx exChainSt).1

/-- C9: when a stored row with the incoming hash has allocation INTERNAL,
`setTransaction` re-flags every row of that hash to assignment=DEPOSIT,
status=PENDING in place (a `List.map`, so the row count is unchanged — no
second row is inserted) and returns the `(nil, nil)` result. -/
theorem setTransaction_internal_redeposit (uuid : String) (tx : SpotTx)
    (st : SpotState) (hint : txInternalExists st tx.hash = true) :
    setTransaction uuid tx st =
      ({ st with transactions := st.transactions.map (redepositFn tx.hash) },
        TxResult.noop) ∧
    ((setTransaction uuid tx st).1).transactions.length =
      st.transactions.length := by
  have hp := txInternalExists_hash st tx.hash hint
  constructor
  · simp [setTransaction, hp, hint]
  · simp [setTransaction, hp, hint]

/-- C9 witness: INTERNAL ingest followed by a second event with the same
hash; the single stored row ends at assignment=DEPOSIT, status=PENDING. -/
theorem setTransaction_internal_redeposit_witness :
    (setTransaction "uuid-4" exDepositTx exIntSt1 =
      ({ exIntSt1 with
          transactions := exIntSt1.transactions.map (redepositFn "0xabc") },
        TxResult.noop)) ∧
    ((setTransaction "uuid-4" exDepositTx exIntSt1).1).transactions.map
        (fun r => (r.hash, r.assignment, r.status)) =
      [("0xabc", Assignment.deposit, Status.pending)] :=
  ⟨(setTransaction_internal_redeposit "uuid-4" exDepositTx exIntSt1 rfl).1, rfl⟩

/-! ## C10 — market price ignores the caller price -/

/-- C10: `getMarket` reassigns its `price` argument from the pair's stored
price (or the scanned zero when the pair is absent) before any use, so for a
fixed database state and fixed base/quote/assigning the result does not
depend on the caller-supplied price. -/
theorem getMarket_price_arg_independent (st : SpotState) (base quote : String)
    (assigning : Assigning) (p1 p2 : Rat) :
    getMarket st base quote assigning p1 = getMarket st base quote assigning p2 := rfl

end Envoys
